import Mathlib

/-!
Shallow embedding of the AttendX backend (`src/server.js`).

The server is an Express app over a PostgreSQL store.  We embed the store
state (the three tables created by `initDatabase`, lines 38-75 of
`server.js`) as lists of rows, and each API handler as a pure function
from a state and the request data to a result carrying the HTTP status,
the JSON body, the successor state and the number of SQL statements
issued to the store.

Store-level constraints declared by the schema are part of the embedding,
because the handlers rely on them and a violated constraint surfaces as a
caught error answered with status 500 (the generic `catch` of every
handler):
  * `employees.name NOT NULL` and `departments.name NOT NULL`;
  * `PRIMARY KEY` on `employees.id`, `departments.id`, `attendance.id`;
  * `attendance.employee_id REFERENCES employees(id) ON DELETE CASCADE`.

Nondeterministic id generation (`emp-${Date.now()}`, `dept-${Date.now()}`,
lines 98 and 217) is modelled by passing the generated token as an
explicit argument.  Request-body fields that the code destructures and
that may be absent (`undefined` in JS) are modelled as `Option String`;
the `x || ''` defaulting of lines 102 and 221 becomes `Option.getD x ""`.
-/

namespace AttendX

/-- A row of the `employees` table (schema lines 41-49).  `name` is
`NOT NULL`; every other non-key column is nullable, hence `Option`. -/
structure EmployeeRow where
  id : String
  name : String
  email : Option String
  phone : Option String
  address : Option String
  department : Option String
  outlet : Option String
deriving Repr, DecidableEq

/-- A row of the `departments` table (schema lines 52-58). -/
structure DepartmentRow where
  id : String
  name : String
  description : Option String
  outlet : Option String
deriving Repr, DecidableEq

/-- A row of the `attendance` table (schema lines 61-69).  `date` and
`status` are `NOT NULL`; every write path supplies `employee_id`, so it
is a plain `String` here; `outlet` is nullable. -/
structure AttendanceRow where
  id : String
  employee_id : String
  date : String
  status : String
  outlet : Option String
deriving Repr, DecidableEq

/-- The attendance JSON shape sent to clients: `employee_id` is renamed
to `employeeId` (lines 256-262 and 301-307). -/
structure AttendanceJson where
  id : String
  employeeId : String
  date : String
  status : String
  outlet : Option String
deriving Repr, DecidableEq

/-- The observable server state: whether the PostgreSQL pool exists
(`DATABASE_URL` configured, lines 18-26) and the contents of the three
tables. -/
structure DB where
  hasPool : Bool
  employees : List EmployeeRow
  departments : List DepartmentRow
  attendance : List AttendanceRow
deriving Repr, DecidableEq

/-- Result of one request: HTTP status, JSON body when the handler
answers with a row (or row set), the successor store state, and how many
SQL statements reached the store. -/
structure HOut (β : Type) where
  status : Nat
  body : Option β
  state : DB
  queries : Nat
deriving Repr, DecidableEq

/-- The state right after startup with fresh tables: `initDatabase` has
run (when a pool exists) and all three tables are empty. -/
def initDB (pool : Bool) : DB := ⟨pool, [], [], []⟩

/-- Predicate for `WHERE id = $1` on `employees`. -/
def empIdMatch (i : String) (r : EmployeeRow) : Bool := r.id == i

/-- Predicate for `WHERE id = $1` on `departments`. -/
def deptIdMatch (i : String) (r : DepartmentRow) : Bool := r.id == i

/-- Predicate for `WHERE id = $1` on `attendance` (the primary-key of an insert). -/
def attIdMatch (i : String) (r : AttendanceRow) : Bool := r.id == i

/-- Predicate for `WHERE employee_id = $1 AND date = $2` on `attendance`. -/
def pairMatch (e d : String) (r : AttendanceRow) : Bool :=
  r.employee_id == e && r.date == d

/-- Predicate for `WHERE employee_id = $1` on `attendance`. -/
def byEmployee (e : String) (r : AttendanceRow) : Bool := r.employee_id == e

/-- The synthesized attendance id: `` `${employeeId}-${date}` `` (line 274). -/
def mkAttendanceId (employeeId date : String) : String :=
  employeeId ++ "-" ++ date

/-- Field rename at the JSON boundary (lines 256-262, 301-307). -/
def attRowToJson (r : AttendanceRow) : AttendanceJson :=
  ⟨r.id, r.employee_id, r.date, r.status, r.outlet⟩

/-- Handler of `GET /api/employees` (lines 81-91). -/
def listEmployees (s : DB) : HOut (List EmployeeRow) :=
  if !s.hasPool then ⟨503, none, s, 0⟩
  else ⟨200, some s.employees, s, 1⟩

/-- Handler of `POST /api/employees` (lines 93-110).  `newId` stands for the
generated `emp-${Date.now()}` token.  The insert passes
`[id, name, email || '', phone, address || '', department || '', outlet]`:
only `email`, `address` and `department` are defaulted to `''`; `phone`
and `outlet` go to the store untouched, so an absent one is stored NULL.
An absent `name` violates the `NOT NULL` constraint and a reused id the
primary key; either store error is caught and answered 500. -/
def createEmployee (s : DB) (newId : String)
    (name email phone address department outlet : Option String) :
    HOut EmployeeRow :=
  if !s.hasPool then ⟨503, none, s, 0⟩
  else
    match name with
    | none => ⟨500, none, s, 1⟩
    | some n =>
      if s.employees.any (empIdMatch newId) then ⟨500, none, s, 1⟩
      else
        let row : EmployeeRow :=
          ⟨newId, n, some (email.getD ""), phone, some (address.getD ""),
            some (department.getD ""), outlet⟩
        ⟨201, some row, { s with employees := s.employees ++ [row] }, 1⟩

/-- Apply the dynamically-built `UPDATE employees SET ...` of lines
119-161 to one row: each field present in the request body overwrites the
column, absent fields are left alone. -/
def applyEmployeePatch
    (name email phone address department outlet : Option String)
    (r : EmployeeRow) : EmployeeRow :=
  { r with
    name := name.getD r.name
    email := match email with | some v => some v | none => r.email
    phone := match phone with | some v => some v | none => r.phone
    address := match address with | some v => some v | none => r.address
    department := match department with | some v => some v | none => r.department
    outlet := match outlet with | some v => some v | none => r.outlet }

/-- Handler of `PATCH /api/employees/:id` (lines 112-174).  If no field of the body
is present the handler answers 400 before any statement is issued
(lines 155-157); otherwise one `UPDATE ... WHERE id = ... RETURNING *`
runs, and an empty `RETURNING` set is answered 404. -/
def updateEmployee (s : DB) (i : String)
    (name email phone address department outlet : Option String) :
    HOut EmployeeRow :=
  if !s.hasPool then ⟨503, none, s, 0⟩
  else if name.isNone && email.isNone && phone.isNone && address.isNone
      && department.isNone && outlet.isNone then
    ⟨400, none, s, 0⟩
  else
    let updated := s.employees.map (fun r =>
      if empIdMatch i r then
        applyEmployeePatch name email phone address department outlet r
      else r)
    let returned := updated.filter (empIdMatch i)
    match returned with
    | [] => ⟨404, none, { s with employees := updated }, 1⟩
    | r :: _ => ⟨200, some r, { s with employees := updated }, 1⟩

/-- Handler of `DELETE /api/employees/:id` (lines 176-197).  First an explicit
`DELETE FROM attendance WHERE employee_id = $1`, then
`DELETE FROM employees WHERE id = $1 RETURNING *`; an empty `RETURNING`
set is answered 404 (with the attendance rows already gone).  The
store's `ON DELETE CASCADE` fires on the second delete but finds no
remaining attendance row for this employee, so it is a no-op here. -/
def deleteEmployee (s : DB) (i : String) : HOut Unit :=
  if !s.hasPool then ⟨503, none, s, 0⟩
  else
    let att := s.attendance.filter (fun r => !byEmployee i r)
    let deleted := s.employees.filter (empIdMatch i)
    let emps := s.employees.filter (fun r => !empIdMatch i r)
    match deleted with
    | [] => ⟨404, none, { s with employees := emps, attendance := att }, 2⟩
    | _ :: _ => ⟨200, some (), { s with employees := emps, attendance := att }, 2⟩

/-- Handler of `GET /api/departments` (lines 200-210). -/
def listDepartments (s : DB) : HOut (List DepartmentRow) :=
  if !s.hasPool then ⟨503, none, s, 0⟩
  else ⟨200, some s.departments, s, 1⟩

/-- Handler of `POST /api/departments` (lines 212-229).  The insert passes
`[id, name, description || '', outlet]`: only `description` is defaulted
to `''`; an absent `outlet` is stored NULL, an absent `name` violates
`NOT NULL` and is answered 500. -/
def createDepartment (s : DB) (newId : String)
    (name description outlet : Option String) : HOut DepartmentRow :=
  if !s.hasPool then ⟨503, none, s, 0⟩
  else
    match name with
    | none => ⟨500, none, s, 1⟩
    | some n =>
      if s.departments.any (deptIdMatch newId) then ⟨500, none, s, 1⟩
      else
        let row : DepartmentRow := ⟨newId, n, some (description.getD ""), outlet⟩
        ⟨201, some row, { s with departments := s.departments ++ [row] }, 1⟩

/-- Handler of `DELETE /api/departments/:id` (lines 231-248). -/
def deleteDepartment (s : DB) (i : String) : HOut Unit :=
  if !s.hasPool then ⟨503, none, s, 0⟩
  else
    let deleted := s.departments.filter (deptIdMatch i)
    let rest := s.departments.filter (fun r => !deptIdMatch i r)
    match deleted with
    | [] => ⟨404, none, { s with departments := rest }, 1⟩
    | _ :: _ => ⟨200, some (), { s with departments := rest }, 1⟩

/-- Handler of `GET /api/attendance` (lines 251-267), with the
`employee_id → employeeId` rename of lines 256-262. -/
def listAttendance (s : DB) : HOut (List AttendanceJson) :=
  if !s.hasPool then ⟨503, none, s, 0⟩
  else ⟨200, some (s.attendance.map attRowToJson), s, 1⟩

/-- Handler of `POST /api/attendance` (lines 269-312), the upsert resolver:
1. `SELECT outlet FROM employees WHERE id = $1` — the employee's outlet,
   or NULL when the employee does not exist (line 278);
2. `SELECT * FROM attendance WHERE employee_id = $1 AND date = $2`;
3. if a row exists: `UPDATE attendance SET status = $1 WHERE ...
   RETURNING *`, answered 200 with `rows[0]`;
   otherwise: `INSERT INTO attendance (id, employee_id, date, status,
   outlet) VALUES ...`, answered 201 — unless the synthesized id collides
   with the `attendance.id` primary key or `employeeId` violates the
   foreign key `REFERENCES employees(id)`, in which case the store error
   is caught and answered 500. -/
def upsertAttendance (s : DB) (employeeId date status : String) :
    HOut AttendanceJson :=
  if !s.hasPool then ⟨503, none, s, 0⟩
  else
    let newId := mkAttendanceId employeeId date
    let empRows := s.employees.filter (empIdMatch employeeId)
    let outlet : Option String :=
      match empRows with
      | [] => none
      | e :: _ => e.outlet
    let existing := s.attendance.filter (pairMatch employeeId date)
    if existing.length > 0 then
      let updated := s.attendance.map (fun r =>
        if pairMatch employeeId date r then { r with status := status } else r)
      let returned := updated.filter (pairMatch employeeId date)
      ⟨200, returned.head?.map attRowToJson, { s with attendance := updated }, 3⟩
    else
      if s.attendance.any (attIdMatch newId) then ⟨500, none, s, 3⟩
      else if !s.employees.any (empIdMatch employeeId) then ⟨500, none, s, 3⟩
      else
        let row : AttendanceRow := ⟨newId, employeeId, date, status, outlet⟩
        ⟨201, some (attRowToJson row),
          { s with attendance := s.attendance ++ [row] }, 3⟩

/-- Handler of `DELETE /api/attendance/:employeeId/:date` (lines 314-334). -/
def deleteAttendanceByKey (s : DB) (employeeId date : String) : HOut Unit :=
  if !s.hasPool then ⟨503, none, s, 0⟩
  else
    let deleted := s.attendance.filter (pairMatch employeeId date)
    let rest := s.attendance.filter (fun r => !pairMatch employeeId date r)
    match deleted with
    | [] => ⟨404, none, { s with attendance := rest }, 1⟩
    | _ :: _ => ⟨200, some (), { s with attendance := rest }, 1⟩

/-- The uniqueness invariant of the `attendance` table the spec states:
at most one row per `(employeeId, date)` pair. -/
def AtMostOnePerPair (l : List AttendanceRow) : Prop :=
  ∀ e d, (l.filter (pairMatch e d)).length ≤ 1

/-- States reachable from a fresh server through the mutating API
handlers.  The list handlers (`GET /api/...`) never change the state, so
they do not add reachable states. -/
inductive Reachable : DB → Prop where
  | init : ∀ pool, Reachable (initDB pool)
  | stepCreateEmp : ∀ s id name email phone address department outlet,
      Reachable s →
      Reachable (createEmployee s id name email phone address department outlet).state
  | stepUpdateEmp : ∀ s i name email phone address department outlet,
      Reachable s →
      Reachable (updateEmployee s i name email phone address department outlet).state
  | stepDeleteEmp : ∀ s i, Reachable s → Reachable (deleteEmployee s i).state
  | stepCreateDept : ∀ s id name description outlet, Reachable s →
      Reachable (createDepartment s id name description outlet).state
  | stepDeleteDept : ∀ s i, Reachable s → Reachable (deleteDepartment s i).state
  | stepUpsert : ∀ s e d st, Reachable s →
      Reachable (upsertAttendance s e d st).state
  | stepDeleteAtt : ∀ s e d, Reachable s →
      Reachable (deleteAttendanceByKey s e d).state

/-! ### Helper lemmas -/

/-- Lemma: `pairMatch` only reads the key columns, never `status`. -/
theorem pairMatch_setStatus (e d st : String) (r : AttendanceRow) :
    pairMatch e d { r with status := st } = pairMatch e d r := rfl

/-- Filtering after a conditional in-place update by the same predicate
is the same as updating the filtered rows: the shape of
`UPDATE ... WHERE c` followed by `RETURNING` rows matching `c`. -/
theorem filter_map_update {α : Type} (p : α → Bool) (f : α → α)
    (hf : ∀ a, p (f a) = p a) (l : List α) :
    (l.map (fun a => if p a then f a else a)).filter p = (l.filter p).map f := by
  induction l with
  | nil => rfl
  | cons a t ih =>
    cases h : p a with
    | true => simp [List.filter_cons, h, hf a, ih]
    | false => simp [List.filter_cons, h, ih]

/-- A row transformation preserving a predicate preserves the number of
rows matching it. -/
theorem length_filter_map_pres {α : Type} (p : α → Bool) (g : α → α)
    (hg : ∀ a, p (g a) = p a) (l : List α) :
    ((l.map g).filter p).length = (l.filter p).length := by
  induction l with
  | nil => rfl
  | cons a t ih =>
    cases h : p a with
    | true => simp [List.filter_cons, hg a, h, ih]
    | false => simp [List.filter_cons, hg a, h, ih]

/-- Deleting rows can only shrink the set matching any pair. -/
theorem atMostOne_filter (l : List AttendanceRow) (q : AttendanceRow → Bool)
    (h : AtMostOnePerPair l) : AtMostOnePerPair (l.filter q) := by
  intro e d
  exact le_trans (((List.filter_sublist l).filter (pairMatch e d)).length_le) (h e d)

/-- The in-place status update of the upsert's `UPDATE` branch leaves
every row's key columns alone, so membership in any pair is unchanged. -/
theorem pairMatch_updateFun (e d st e' d' : String) (r : AttendanceRow) :
    pairMatch e' d' (if pairMatch e d r then { r with status := st } else r)
      = pairMatch e' d' r := by
  by_cases hc : pairMatch e d r = true
  · simp [hc]; rfl
  · simp [hc]

/-- The upsert's insert branch, when the pair is fresh, the synthesized
id is fresh and the employee exists: one row is appended and the handler
answers 201 (`o` is whatever the outlet lookup of line 278 resolved). -/
theorem upsert_insert_case (s : DB) (e d st : String)
    (hpool : s.hasPool = true)
    (hpair : s.attendance.filter (pairMatch e d) = [])
    (hid : s.attendance.any (attIdMatch (mkAttendanceId e d)) = false)
    (hemp : s.employees.any (empIdMatch e) = true) :
    ∃ o : Option String,
      upsertAttendance s e d st =
        ⟨201, some (attRowToJson ⟨mkAttendanceId e d, e, d, st, o⟩),
          { s with attendance := s.attendance ++ [⟨mkAttendanceId e d, e, d, st, o⟩] }, 3⟩ := by
  refine ⟨(match s.employees.filter (empIdMatch e) with
           | [] => none
           | r :: _ => r.outlet), ?_⟩
  unfold upsertAttendance
  rw [hpool]
  simp [hpair, hid, hemp]

/-- The upsert's update branch: when a row for the pair exists the
handler answers 200, the store keeps every row with only the matching
rows' `status` overwritten, and the body is the first matching row. -/
theorem upsert_update_case (s : DB) (e d st : String)
    (hpool : s.hasPool = true)
    (hne : s.attendance.filter (pairMatch e d) ≠ []) :
    upsertAttendance s e d st =
      ⟨200, (((s.attendance.filter (pairMatch e d)).map
          (fun r => { r with status := st })).head?).map attRowToJson,
        { s with attendance := (s.attendance.map
          (fun r => if pairMatch e d r then { r with status := st } else r)) }, 3⟩ := by
  have hlen : (s.attendance.filter (pairMatch e d)).length > 0 := List.length_pos.mpr hne
  unfold upsertAttendance
  rw [hpool]
  simp only [Bool.not_true, Bool.false_eq_true, if_false, hlen, if_true]
  rw [filter_map_update (pairMatch e d) (fun r => { r with status := st })
    (pairMatch_setStatus e d st)]

/-- Creating an employee never touches the `attendance` table. -/
theorem createEmployee_attendance (s : DB) (id : String)
    (name email phone address department outlet : Option String) :
    (createEmployee s id name email phone address department outlet).state.attendance
      = s.attendance := by
  unfold createEmployee
  dsimp only
  repeat' split
  all_goals rfl

/-- Updating an employee never touches the `attendance` table. -/
theorem updateEmployee_attendance (s : DB) (i : String)
    (name email phone address department outlet : Option String) :
    (updateEmployee s i name email phone address department outlet).state.attendance
      = s.attendance := by
  unfold updateEmployee
  dsimp only
  repeat' split
  all_goals rfl

/-- Creating a department never touches the `attendance` table. -/
theorem createDepartment_attendance (s : DB) (id : String)
    (name description outlet : Option String) :
    (createDepartment s id name description outlet).state.attendance
      = s.attendance := by
  unfold createDepartment
  dsimp only
  repeat' split
  all_goals rfl

/-- Deleting a department never touches the `attendance` table. -/
theorem deleteDepartment_attendance (s : DB) (i : String) :
    (deleteDepartment s i).state.attendance = s.attendance := by
  unfold deleteDepartment
  dsimp only
  repeat' split
  all_goals rfl

/-- Deleting an employee leaves the attendance table unchanged
(no pool) or removes this employee's rows from it. -/
theorem deleteEmployee_attendance (s : DB) (i : String) :
    (deleteEmployee s i).state.attendance = s.attendance ∨
    (deleteEmployee s i).state.attendance =
      s.attendance.filter (fun r => !byEmployee i r) := by
  unfold deleteEmployee
  dsimp only
  repeat' split
  · exact Or.inl rfl
  · exact Or.inr rfl
  · exact Or.inr rfl

/-- Deleting one attendance record leaves the attendance
table unchanged (no pool) or removes the rows of one pair. -/
theorem deleteAttendanceByKey_attendance (s : DB) (e d : String) :
    (deleteAttendanceByKey s e d).state.attendance = s.attendance ∨
    (deleteAttendanceByKey s e d).state.attendance =
      s.attendance.filter (fun r => !pairMatch e d r) := by
  unfold deleteAttendanceByKey
  dsimp only
  repeat' split
  · exact Or.inl rfl
  · exact Or.inr rfl
  · exact Or.inr rfl

/-- The upsert preserves the at-most-one-row-per-pair invariant: the
update branch only rewrites `status` in place, and the insert branch
only fires when no row for the pair exists. -/
theorem upsertAttendance_preserves (s : DB) (e d st : String)
    (h : AtMostOnePerPair s.attendance) :
    AtMostOnePerPair (upsertAttendance s e d st).state.attendance := by
  unfold upsertAttendance
  dsimp only
  split
  · exact h
  · split
    · intro e' d'
      exact le_trans
        (le_of_eq (length_filter_map_pres (pairMatch e' d') _
          (fun r => pairMatch_updateFun e d st e' d' r) s.attendance))
        (h e' d')
    · split
      · exact h
      · split
        · exact h
        · rename_i hnotex _ _
          intro e' d'
          rw [List.filter_append, List.length_append]
          have hex0 : (s.attendance.filter (pairMatch e d)).length = 0 :=
            Nat.eq_zero_of_not_pos hnotex
          cases hrow : pairMatch e' d'
              ⟨mkAttendanceId e d, e, d, st,
                match s.employees.filter (empIdMatch e) with
                | [] => none
                | r :: _ => r.outlet⟩ with
          | true =>
            have hkey : e = e' ∧ d = d' := by
              simp only [pairMatch, Bool.and_eq_true, beq_iff_eq] at hrow
              exact hrow
            obtain ⟨he, hd⟩ := hkey
            subst he; subst hd
            simp [List.filter_cons, hrow, hex0]
          | false =>
            simp only [List.filter_cons, hrow, List.filter_nil, List.length_nil,
              Nat.add_zero]
            exact h e' d'

/-! ### Concrete states for scenarios and witnesses -/

/-- An employee row as created by `POST /api/employees` with body
`{name: "Alice", outlet: "North"}`. -/
def northEmp : EmployeeRow :=
  ⟨"e1", "Alice", some "", none, some "", some "", some "North"⟩

/-- A store with one employee and no attendance. -/
def oneEmpState : DB := ⟨true, [northEmp], [], []⟩

/-- A store with one employee and one attendance row for
`("e1", "2024-01-01")`. -/
def oneAttState : DB :=
  ⟨true, [northEmp], [],
    [⟨"e1-2024-01-01", "e1", "2024-01-01", "present", some "North"⟩]⟩

/-- A store with two employees whose ids make `mkAttendanceId` collide:
`"a-b" + "-" + "c"` and `"a" + "-" + "b-c"` are both `"a-b-c"`. -/
def collisionState : DB :=
  ⟨true, [⟨"a-b", "X", some "", none, some "", some "", none⟩,
          ⟨"a", "Y", some "", none, some "", some "", none⟩], [], []⟩

/-! ### The claims -/

/-- C1: The attendance upsert is idempotent per (employeeId, date).
From a state in which the pair is fresh, the synthesized id is unused
and the employee exists (so the insert satisfies the store's
constraints), two upserts with identical arguments answer 201 (Created)
then 200 (OK) and leave exactly one attendance row for the pair, with
`status` equal to the supplied status. -/
theorem upsert_twice_idempotent (s : DB) (e d st : String)
    (hpool : s.hasPool = true)
    (hemp : s.employees.any (empIdMatch e) = true)
    (hpair : s.attendance.filter (pairMatch e d) = [])
    (hid : s.attendance.any (attIdMatch (mkAttendanceId e d)) = false) :
    (upsertAttendance s e d st).status = 201 ∧
    (upsertAttendance (upsertAttendance s e d st).state e d st).status = 200 ∧
    ((upsertAttendance (upsertAttendance s e d st).state e d st).state.attendance.filter
      (pairMatch e d)).length = 1 ∧
    ∀ r ∈ (upsertAttendance (upsertAttendance s e d st).state e d st).state.attendance.filter
      (pairMatch e d), r.status = st := by
  obtain ⟨o, h1⟩ := upsert_insert_case s e d st hpool hpair hid hemp
  set row1 : AttendanceRow := ⟨mkAttendanceId e d, e, d, st, o⟩ with hrow1
  have hrowp : pairMatch e d row1 = true := by simp [pairMatch, hrow1]
  have hs1pool : (upsertAttendance s e d st).state.hasPool = true := by
    rw [h1]; exact hpool
  have hfil1 : (upsertAttendance s e d st).state.attendance.filter (pairMatch e d)
      = [row1] := by
    rw [h1]
    show (s.attendance ++ [row1]).filter (pairMatch e d) = [row1]
    rw [List.filter_append, hpair, List.nil_append]
    simp [List.filter_cons, hrowp]
  have hne1 : (upsertAttendance s e d st).state.attendance.filter (pairMatch e d)
      ≠ [] := by
    rw [hfil1]; exact List.cons_ne_nil _ _
  have h2 := upsert_update_case (upsertAttendance s e d st).state e d st hs1pool hne1
  refine ⟨by rw [h1], by rw [h2], ?_, ?_⟩
  · rw [h2]
    show (((upsertAttendance s e d st).state.attendance.map
      (fun r => if pairMatch e d r then { r with status := st } else r)).filter
        (pairMatch e d)).length = 1
    rw [filter_map_update (pairMatch e d) (fun r => { r with status := st })
      (pairMatch_setStatus e d st), hfil1]
    rfl
  · intro r hr
    rw [h2] at hr
    have hr2 : r ∈ ((upsertAttendance s e d st).state.attendance.map
      (fun r => if pairMatch e d r then { r with status := st } else r)).filter
        (pairMatch e d) := hr
    rw [filter_map_update (pairMatch e d) (fun r => { r with status := st })
      (pairMatch_setStatus e d st), hfil1] at hr2
    simp only [List.map_cons, List.map_nil, List.mem_singleton] at hr2
    rw [hr2]

/-- Witness for C1: two identical upserts on a store holding employee
`e1` and no attendance. -/
theorem upsert_twice_idempotent_witness :
    (upsertAttendance oneEmpState "e1" "2024-01-01" "present").status = 201 ∧
    (upsertAttendance (upsertAttendance oneEmpState "e1" "2024-01-01" "present").state
      "e1" "2024-01-01" "present").status = 200 ∧
    ((upsertAttendance (upsertAttendance oneEmpState "e1" "2024-01-01" "present").state
      "e1" "2024-01-01" "present").state.attendance.filter
        (pairMatch "e1" "2024-01-01")).length = 1 :=
  ⟨(upsert_twice_idempotent oneEmpState "e1" "2024-01-01" "present"
      rfl (by decide) rfl rfl).1,
   (upsert_twice_idempotent oneEmpState "e1" "2024-01-01" "present"
      rfl (by decide) rfl rfl).2.1,
   (upsert_twice_idempotent oneEmpState "e1" "2024-01-01" "present"
      rfl (by decide) rfl rfl).2.2.1⟩

/-- C2: Every state reachable from a fresh server through the API
handlers has at most one attendance row per (employeeId, date) pair,
and the upsert preserves this invariant from any state satisfying it
(its existence check before insert is what makes the insert branch
safe). -/
theorem at_most_one_attendance_per_pair :
    (∀ s, Reachable s → AtMostOnePerPair s.attendance) ∧
    (∀ s e d st, AtMostOnePerPair s.attendance →
      AtMostOnePerPair (upsertAttendance s e d st).state.attendance) := by
  constructor
  · intro s hs
    induction hs with
    | init pool => intro e d; simp [initDB]
    | stepCreateEmp s id name email phone address department outlet hr ih =>
      rw [createEmployee_attendance]; exact ih
    | stepUpdateEmp s i name email phone address department outlet hr ih =>
      rw [updateEmployee_attendance]; exact ih
    | stepDeleteEmp s i hr ih =>
      rcases deleteEmployee_attendance s i with h | h
      · rw [h]; exact ih
      · rw [h]; exact atMostOne_filter _ _ ih
    | stepCreateDept s id name description outlet hr ih =>
      rw [createDepartment_attendance]; exact ih
    | stepDeleteDept s i hr ih =>
      rw [deleteDepartment_attendance]; exact ih
    | stepUpsert s e d st hr ih =>
      exact upsertAttendance_preserves s e d st ih
    | stepDeleteAtt s e d hr ih =>
      rcases deleteAttendanceByKey_attendance s e d with h | h
      · rw [h]; exact ih
      · rw [h]; exact atMostOne_filter _ _ ih
  · exact fun s e d st h => upsertAttendance_preserves s e d st h

/-- Witness for C2 at the reachable initial state and one concrete
pair. -/
theorem at_most_one_attendance_per_pair_witness :
    ((initDB true).attendance.filter (pairMatch "e1" "2024-01-01")).length ≤ 1 :=
  at_most_one_attendance_per_pair.1 (initDB true) (Reachable.init true)
    "e1" "2024-01-01"

/-- C3, counterexample: creating an employee with only `name` stores
`phone` and `outlet` as NULL (`none`), not as the empty string — the
insert of line 102 defaults only `email`, `address` and `department`. -/
theorem create_omitted_phone_stored_null :
    (createEmployee (initDB true) "emp-1" (some "Alice")
      none none none none none).state.employees =
      [⟨"emp-1", "Alice", some "", none, some "", some "", none⟩] ∧
    ∀ r ∈ (createEmployee (initDB true) "emp-1" (some "Alice")
      none none none none none).state.employees,
      r.phone = none ∧ r.outlet = none := by
  refine ⟨rfl, by decide⟩

/-- C3, amended: Create (Employee or Department) answers 201 and appends
exactly one row, which the subsequent List shows exactly once; the
absent optional fields `email`, `address`, `department` (Employee) and
`description` (Department) are stored as the empty string, but absent
`phone` and `outlet` are stored as NULL. -/
theorem create_defaults (s : DB) (idE idD n m : String)
    (email phone address department outlet descr od : Option String)
    (hpool : s.hasPool = true)
    (hfe : s.employees.any (empIdMatch idE) = false)
    (hfd : s.departments.any (deptIdMatch idD) = false) :
    createEmployee s idE (some n) email phone address department outlet =
      ⟨201, some ⟨idE, n, some (email.getD ""), phone, some (address.getD ""),
        some (department.getD ""), outlet⟩,
       { s with employees := s.employees ++ [⟨idE, n, some (email.getD ""), phone,
          some (address.getD ""), some (department.getD ""), outlet⟩] }, 1⟩ ∧
    (listEmployees { s with employees := s.employees ++ [⟨idE, n,
        some (email.getD ""), phone, some (address.getD ""),
        some (department.getD ""), outlet⟩] }).body =
      some (s.employees ++ [⟨idE, n, some (email.getD ""), phone,
        some (address.getD ""), some (department.getD ""), outlet⟩]) ∧
    List.count (⟨idE, n, some (email.getD ""), phone, some (address.getD ""),
        some (department.getD ""), outlet⟩ : EmployeeRow)
      (s.employees ++ [⟨idE, n, some (email.getD ""), phone, some (address.getD ""),
        some (department.getD ""), outlet⟩]) = 1 ∧
    createDepartment s idD (some m) descr od =
      ⟨201, some ⟨idD, m, some (descr.getD ""), od⟩,
       { s with departments := s.departments ++ [⟨idD, m, some (descr.getD ""), od⟩] },
       1⟩ ∧
    (listDepartments { s with departments :=
        s.departments ++ [⟨idD, m, some (descr.getD ""), od⟩] }).body =
      some (s.departments ++ [⟨idD, m, some (descr.getD ""), od⟩]) ∧
    List.count (⟨idD, m, some (descr.getD ""), od⟩ : DepartmentRow)
      (s.departments ++ [⟨idD, m, some (descr.getD ""), od⟩]) = 1 := by
  refine ⟨?_, ?_, ?_, ?_, ?_, ?_⟩
  · unfold createEmployee
    rw [hpool]
    simp [hfe]
  · unfold listEmployees
    simp [hpool]
  · rw [List.count_append]
    have h0 : List.count (⟨idE, n, some (email.getD ""), phone, some (address.getD ""),
        some (department.getD ""), outlet⟩ : EmployeeRow) s.employees = 0 := by
      rw [List.count_eq_zero]
      intro hmem
      have hx := List.any_eq_false.mp hfe _ hmem
      simp [empIdMatch] at hx
    simp [h0]
  · unfold createDepartment
    rw [hpool]
    simp [hfd]
  · unfold listDepartments
    simp [hpool]
  · rw [List.count_append]
    have h0 : List.count (⟨idD, m, some (descr.getD ""), od⟩ : DepartmentRow)
        s.departments = 0 := by
      rw [List.count_eq_zero]
      intro hmem
      have hx := List.any_eq_false.mp hfd _ hmem
      simp [deptIdMatch] at hx
    simp [h0]

/-- Witness for C3's amended claim on the empty store. -/
theorem create_defaults_witness :
    createEmployee (initDB true) "emp-1" (some "Alice") (some "a@b.c") none none none none =
      ⟨201, some ⟨"emp-1", "Alice", some "a@b.c", none, some "", some "", none⟩,
       { initDB true with employees := [⟨"emp-1", "Alice", some "a@b.c", none,
          some "", some "", none⟩] }, 1⟩ ∧
    List.count (⟨"emp-1", "Alice", some "a@b.c", none, some "", some "", none⟩ : EmployeeRow)
      ((initDB true).employees ++ [⟨"emp-1", "Alice", some "a@b.c", none, some "",
        some "", none⟩]) = 1 ∧
    createDepartment (initDB true) "dept-1" (some "Sales") none (some "HQ") =
      ⟨201, some ⟨"dept-1", "Sales", some "", some "HQ"⟩,
       { initDB true with departments := [⟨"dept-1", "Sales", some "", some "HQ"⟩] },
       1⟩ :=
  ⟨(create_defaults (initDB true) "emp-1" "dept-1" "Alice" "Sales" (some "a@b.c")
      none none none none none (some "HQ") rfl rfl rfl).1,
   (create_defaults (initDB true) "emp-1" "dept-1" "Alice" "Sales" (some "a@b.c")
      none none none none none (some "HQ") rfl rfl rfl).2.2.1,
   (create_defaults (initDB true) "emp-1" "dept-1" "Alice" "Sales" (some "a@b.c")
      none none none none none (some "HQ") rfl rfl rfl).2.2.2.1⟩

/-- C4, counterexample: creating an employee or a department without
`name` answers 500 (the caught NOT-NULL store error of the generic
catch), not a structured 4xx. -/
theorem create_missing_name_not_validation :
    (createEmployee (initDB true) "emp-1" none none none none none none).status = 500 ∧
    (createDepartment (initDB true) "dept-1" none none none).status = 500 ∧
    ¬(400 ≤ (createEmployee (initDB true) "emp-1" none none none none none none).status ∧
      (createEmployee (initDB true) "emp-1" none none none none none none).status < 500) ∧
    ¬(400 ≤ (createDepartment (initDB true) "dept-1" none none none).status ∧
      (createDepartment (initDB true) "dept-1" none none none).status < 500) := by
  refine ⟨rfl, rfl, by decide, by decide⟩

/-- C4, amended: with a pool configured, Create with an absent `name`
issues the insert, which fails on the store's NOT-NULL constraint; the
handler surfaces it as a raw 500 store error leaving the state
unchanged — there is no application-layer validation producing a 4xx. -/
theorem create_missing_name_store_error (s : DB) (idE idD : String)
    (email phone address department outlet descr od : Option String)
    (hpool : s.hasPool = true) :
    createEmployee s idE none email phone address department outlet =
      ⟨500, none, s, 1⟩ ∧
    createDepartment s idD none descr od = ⟨500, none, s, 1⟩ := by
  constructor
  · unfold createEmployee; rw [hpool]; rfl
  · unfold createDepartment; rw [hpool]; rfl

/-- Witness for C4's amended claim on the empty store. -/
theorem create_missing_name_store_error_witness :
    createEmployee (initDB true) "emp-1" none none none none none none =
      ⟨500, none, initDB true, 1⟩ ∧
    createDepartment (initDB true) "dept-1" none none none =
      ⟨500, none, initDB true, 1⟩ :=
  create_missing_name_store_error (initDB true) "emp-1" "dept-1"
    none none none none none none none rfl

/-- C7, counterexample: upserting attendance for an employee id that
does not exist does NOT succeed: the insert violates the
`REFERENCES employees(id)` foreign key, the handler answers 500 and no
attendance row is recorded. -/
theorem upsert_unknown_employee_rejected :
    upsertAttendance (initDB true) "e1" "2024-01-01" "present" =
      ⟨500, none, initDB true, 3⟩ ∧
    (upsertAttendance (initDB true) "e1" "2024-01-01" "present").state.attendance
      = [] := by
  refine ⟨by decide, by decide⟩

/-- C7, amended: when no employee row matches `employeeId` (and no
attendance row exists for the pair), the outlet lookup of line 278
resolves to NULL and the handler still attempts the insert, but the
store's foreign key on `attendance.employee_id` rejects it: the upsert
answers 500 with the state unchanged instead of recording the row. -/
theorem upsert_unknown_employee_store_error (s : DB) (e d st : String)
    (hpool : s.hasPool = true)
    (hnoemp : s.employees.any (empIdMatch e) = false)
    (hpair : s.attendance.filter (pairMatch e d) = []) :
    s.employees.filter (empIdMatch e) = [] ∧
    upsertAttendance s e d st = ⟨500, none, s, 3⟩ := by
  constructor
  · rw [List.filter_eq_nil_iff]
    exact List.any_eq_false.mp hnoemp
  · unfold upsertAttendance
    rw [hpool]
    cases hany : s.attendance.any (attIdMatch (mkAttendanceId e d)) with
    | true => simp [hpair, hany]
    | false => simp [hpair, hany, hnoemp]

/-- Witness for C7's amended claim on the empty store. -/
theorem upsert_unknown_employee_store_error_witness :
    (initDB true).employees.filter (empIdMatch "e1") = [] ∧
    upsertAttendance (initDB true) "e1" "2024-01-01" "present" =
      ⟨500, none, initDB true, 3⟩ :=
  upsert_unknown_employee_store_error (initDB true) "e1" "2024-01-01" "present"
    rfl rfl rfl

/-- C5: For every id, `PATCH /api/employees/:id` with an empty
partial-field set answers 400, leaves the store unchanged and issues no
statement to the store. -/
theorem update_empty_field_set (s : DB) (i : String) (hpool : s.hasPool = true) :
    updateEmployee s i none none none none none none = ⟨400, none, s, 0⟩ := by
  unfold updateEmployee
  rw [hpool]
  rfl

/-- Witness for C5 at a concrete store. -/
theorem update_empty_field_set_witness :
    updateEmployee (initDB true) "emp-1" none none none none none none =
      ⟨400, none, initDB true, 0⟩ :=
  update_empty_field_set (initDB true) "emp-1" rfl

/-- C6: After `DELETE /api/employees/:id`, no attendance row referencing
that employee id remains — the handler issues the explicit
`DELETE FROM attendance WHERE employee_id = $1` before deleting the
employee row, so this holds even when the employee row does not exist
and the handler answers 404. -/
theorem delete_employee_clears_attendance (s : DB) (i : String)
    (hpool : s.hasPool = true) :
    (deleteEmployee s i).state.attendance.filter (byEmployee i) = [] := by
  have key : ∀ l : List AttendanceRow,
      (l.filter (fun r => !byEmployee i r)).filter (byEmployee i) = [] := by
    intro l
    rw [List.filter_eq_nil_iff]
    intro a ha
    have h2 := (List.mem_filter.mp ha).2
    simp only [Bool.not_eq_true'] at h2
    simp [h2]
  unfold deleteEmployee
  rw [hpool]
  simp only [Bool.not_true, Bool.false_eq_true, if_false]
  split
  · exact key _
  · exact key _

/-- Witness for C6: deleting an employee that has an attendance row. -/
theorem delete_employee_clears_attendance_witness :
    (deleteEmployee oneAttState "e1").state.attendance.filter (byEmployee "e1") = [] :=
  delete_employee_clears_attendance oneAttState "e1" rfl

/-- C8: When the upsert finds a row for the pair it answers 200 and only
rewrites `status` in place: the resulting attendance table is the
pointwise status-update of the old one, and that pointwise update keeps
every row's `id`, `employee_id`, `date` and `outlet` — in particular the
outlet snapshotted at original write time survives later employee
edits. -/
theorem upsert_existing_updates_only_status (s : DB) (e d st : String)
    (hpool : s.hasPool = true)
    (hex : s.attendance.filter (pairMatch e d) ≠ []) :
    (upsertAttendance s e d st).status = 200 ∧
    (upsertAttendance s e d st).state.attendance =
      s.attendance.map (fun r => if pairMatch e d r then { r with status := st } else r) ∧
    ∀ r : AttendanceRow,
      (if pairMatch e d r then { r with status := st } else r).id = r.id ∧
      (if pairMatch e d r then { r with status := st } else r).employee_id = r.employee_id ∧
      (if pairMatch e d r then { r with status := st } else r).date = r.date ∧
      (if pairMatch e d r then { r with status := st } else r).outlet = r.outlet := by
  have h := upsert_update_case s e d st hpool hex
  refine ⟨by rw [h], by rw [h], ?_⟩
  intro r
  by_cases hc : pairMatch e d r = true
  · simp [hc]
  · simp [hc]

/-- Witness for C8: upserting a pair that already has a row, after the
employee's outlet changed to "South"; the row keeps outlet "North". -/
theorem upsert_existing_updates_only_status_witness :
    (upsertAttendance oneAttState "e1" "2024-01-01" "absent").status = 200 ∧
    (upsertAttendance oneAttState "e1" "2024-01-01" "absent").state.attendance =
      [⟨"e1-2024-01-01", "e1", "2024-01-01", "absent", some "North"⟩] :=
  ⟨(upsert_existing_updates_only_status oneAttState "e1" "2024-01-01" "absent"
      rfl (by decide)).1,
   by
    rw [(upsert_existing_updates_only_status oneAttState "e1" "2024-01-01" "absent"
      rfl (by decide)).2.1]
    decide⟩

/-- C9: With no connection string configured (no pool), every data
endpoint answers 503, changes nothing and issues no statement to the
store. -/
theorem no_pool_all_503 (s : DB) (hpool : s.hasPool = false) :
    listEmployees s = ⟨503, none, s, 0⟩ ∧
    (∀ id name email phone address department outlet,
      createEmployee s id name email phone address department outlet =
        ⟨503, none, s, 0⟩) ∧
    (∀ i name email phone address department outlet,
      updateEmployee s i name email phone address department outlet =
        ⟨503, none, s, 0⟩) ∧
    (∀ i, deleteEmployee s i = ⟨503, none, s, 0⟩) ∧
    listDepartments s = ⟨503, none, s, 0⟩ ∧
    (∀ id name description outlet,
      createDepartment s id name description outlet = ⟨503, none, s, 0⟩) ∧
    (∀ i, deleteDepartment s i = ⟨503, none, s, 0⟩) ∧
    listAttendance s = ⟨503, none, s, 0⟩ ∧
    (∀ e d st, upsertAttendance s e d st = ⟨503, none, s, 0⟩) ∧
    (∀ e d, deleteAttendanceByKey s e d = ⟨503, none, s, 0⟩) := by
  refine ⟨?_, fun id name email phone address department outlet => ?_,
    fun i name email phone address department outlet => ?_, fun i => ?_, ?_,
    fun id name description outlet => ?_, fun i => ?_, ?_, fun e d st => ?_,
    fun e d => ?_⟩
  all_goals simp [listEmployees, createEmployee, updateEmployee, deleteEmployee,
    listDepartments, createDepartment, deleteDepartment, listAttendance,
    upsertAttendance, deleteAttendanceByKey, hpool]

/-- Witness for C9 at the empty pool-less store. -/
theorem no_pool_all_503_witness :
    listEmployees (initDB false) = ⟨503, none, initDB false, 0⟩ ∧
    createEmployee (initDB false) "emp-1" (some "A") none none none none none =
      ⟨503, none, initDB false, 0⟩ ∧
    updateEmployee (initDB false) "emp-1" (some "B") none none none none none =
      ⟨503, none, initDB false, 0⟩ ∧
    deleteEmployee (initDB false) "emp-1" = ⟨503, none, initDB false, 0⟩ ∧
    listDepartments (initDB false) = ⟨503, none, initDB false, 0⟩ ∧
    createDepartment (initDB false) "dept-1" (some "Sales") none none =
      ⟨503, none, initDB false, 0⟩ ∧
    deleteDepartment (initDB false) "dept-1" = ⟨503, none, initDB false, 0⟩ ∧
    listAttendance (initDB false) = ⟨503, none, initDB false, 0⟩ ∧
    upsertAttendance (initDB false) "e1" "2024-01-01" "present" =
      ⟨503, none, initDB false, 0⟩ ∧
    deleteAttendanceByKey (initDB false) "e1" "2024-01-01" =
      ⟨503, none, initDB false, 0⟩ :=
  ⟨(no_pool_all_503 (initDB false) rfl).1,
   (no_pool_all_503 (initDB false) rfl).2.1 "emp-1" (some "A") none none none none none,
   (no_pool_all_503 (initDB false) rfl).2.2.1 "emp-1" (some "B") none none none none none,
   (no_pool_all_503 (initDB false) rfl).2.2.2.1 "emp-1",
   (no_pool_all_503 (initDB false) rfl).2.2.2.2.1,
   (no_pool_all_503 (initDB false) rfl).2.2.2.2.2.1 "dept-1" (some "Sales") none none,
   (no_pool_all_503 (initDB false) rfl).2.2.2.2.2.2.1 "dept-1",
   (no_pool_all_503 (initDB false) rfl).2.2.2.2.2.2.2.1,
   (no_pool_all_503 (initDB false) rfl).2.2.2.2.2.2.2.2.1 "e1" "2024-01-01" "present",
   (no_pool_all_503 (initDB false) rfl).2.2.2.2.2.2.2.2.2 "e1" "2024-01-01"⟩

/-- C10: the id synthesis `employeeId + "-" + date` is not injective:
the distinct pairs ("a-b","c") and ("a","b-c") both give "a-b-c", and
operationally, after an upsert creates the row for ("a-b","c"), the
upsert for the fresh pair ("a","b-c") hits the `attendance.id` primary
key: it answers 500 and stores nothing. -/
theorem attendance_id_collision :
    mkAttendanceId "a-b" "c" = mkAttendanceId "a" "b-c" ∧
    (("a-b", "c") : String × String) ≠ ("a", "b-c") ∧
    (upsertAttendance collisionState "a-b" "c" "present").status = 201 ∧
    (upsertAttendance collisionState "a-b" "c" "present").state.attendance.filter
      (pairMatch "a" "b-c") = [] ∧
    (upsertAttendance (upsertAttendance collisionState "a-b" "c" "present").state
      "a" "b-c" "present").status = 500 ∧
    (upsertAttendance (upsertAttendance collisionState "a-b" "c" "present").state
      "a" "b-c" "present").state =
      (upsertAttendance collisionState "a-b" "c" "present").state := by
  refine ⟨rfl, by decide, by decide, by decide, by decide, by decide⟩

end AttendX
